import Mathlib

/-!
Shallow embedding of discord-mod-mail (`src/main.py`), a single-file Discord
mod-mail bot.  The bot relays direct messages from users into one staff
coordination channel, relays staff replies back, and maintains a persisted
ignore list (`ignored` sqlite table) plus an in-memory per-user anti-spam
counter.

Modelling conventions:
* user ids, counter values and configuration thresholds are Python `int`,
  embedded as `Int`;
* the `ignored` sqlite table is an association list keyed by `user_id`;
  the `PRIMARY KEY` uniqueness violation (`sqlite3.IntegrityError`) of
  `INSERT INTO ignored` is modelled by a key-presence check in `add_ignore`;
* outbound Discord calls (channel sends, DM sends, reactions, typing,
  presence, message deletion) are recorded as a list of `Effect`s, in the
  order the handler issues them; a DM send that raises
  `discord.Forbidden` is modelled by the oracle `World.dmDeliverable`
  returning `false`, in which case no `userSend` effect is produced;
* the handler body runs atomically between suspension points (the event
  loop is cooperative); the one detached continuation — the anti-spam
  decrement that fires after `asyncio.sleep(seconds)` at main.py:168-169 —
  is returned as `schedDecrement` and modelled as a separate event in the
  trace semantics `run` below.
-/

namespace ModMail

/-- Constant `SIZE_LIMIT = 0x800000` from main.py line 25. -/
def SIZE_LIMIT : Nat := 0x800000

/-- Constant `SIZE_DIFF = 0x800` from main.py line 26. -/
def SIZE_DIFF : Nat := 0x800

/-- Row of the `ignored` table: `(user_id, quiet, reason)`; the key
`user_id` is held separately in the store. -/
structure IgnoreEntry where
  quiet : Bool
  reason : Option String
deriving DecidableEq, Repr

/-- The `ignored` sqlite table: association list keyed by `user_id`
(`user_id INTEGER PRIMARY KEY, quiet INTEGER, reason TEXT NULL`). -/
abbrev IgnoreStore := List (Int × IgnoreEntry)

/-- Embeds `ModMail.is_ignored` (main.py:327-333):
`SELECT quiet, reason FROM ignored WHERE user_id = ?`, returning the row
when present. -/
def is_ignored (store : IgnoreStore) (user_id : Int) : Option IgnoreEntry :=
  match store.find? (fun e => e.1 == user_id) with
  | some e => some e.2
  | none => none

/-- Embeds `ModMail.add_ignore` (main.py:335-346):
`INSERT INTO ignored VALUES (?, ?, ?)`; the `sqlite3.IntegrityError`
raised on a `PRIMARY KEY` collision (entry already present) yields
`false` with the store unchanged. -/
def add_ignore (store : IgnoreStore) (user_id : Int)
    (reason : Option String) (is_quiet : Bool) : Bool × IgnoreStore :=
  match is_ignored store user_id with
  | some _ => (false, store)
  | none => (true, (user_id, ⟨is_quiet, reason⟩) :: store)

/-- Embeds `ModMail.remove_ignore` (main.py:348-353):
`DELETE FROM ignored WHERE user_id = ?`, returning the sqlite rowcount
(number of rows deleted). -/
def remove_ignore (store : IgnoreStore) (user_id : Int) : Nat × IgnoreStore :=
  (store.countP (fun e => e.1 == user_id),
   store.filter (fun e => !(e.1 == user_id)))

/-- Discord user/role mention string, `user.mention` / `member.mention`. -/
def mention (uid : Int) : String := s!"<@{uid}>"

/-- Configuration read from `config.ini`: `command_prefix` (`pfx`),
`AntiSpam.messages` (`threshold`), `AntiSpam.seconds`,
`Main.anonymous_staff` and `Main.playing`. -/
structure Config where
  pfx : String
  threshold : Int
  seconds : Nat
  anonymous_staff : Bool
  playing : String

/-- Fields of a `discord.Member` the code reads: display name (`str`),
`nick`, and the `bot` flag. -/
structure MemberInfo where
  name : String
  nick : Option String
  bot : Bool
deriving DecidableEq, Repr

/-- External Discord collaborators the handlers consult.  `guildMember`
models `guild.get_member` (the bot serves one guild: the coordination
channel's guild, which is also `self.guilds[0]` looked at by the
nickname loop at main.py:135-139).  `dmDeliverable uid = false` models
`member.send` raising `discord.Forbidden` for that user. -/
structure World where
  guildMember : Int → Option MemberInfo
  dmDeliverable : Int → Bool

/-- Channel classification used by `on_message` (main.py:117 and 171):
a `discord.DMChannel`, the coordination channel `self.channel`, or any
other channel (which falls through both branches). -/
inductive Channel where
  | dm
  | coordination
  | other
deriving DecidableEq, Repr

/-- Fields of a `discord.Attachment` the code reads. -/
structure Attachment where
  filename : String
  url : String
  size : Nat
deriving DecidableEq, Repr

/-- Fields of an inbound `discord.Message` the code reads.
`author_name` is `str(message.author)`. -/
structure Message where
  author_id : Int
  author_bot : Bool
  author_name : String
  channel : Channel
  content : String
  attachments : List Attachment
deriving DecidableEq, Repr

/-- The first parsed command token `args[0]` (main.py:179-180): kept as a
string unless `str.isdigit()` holds, in which case it is converted to
`int`.  This is the key type of `anti_duplicate_replies`. -/
inductive Tok where
  | num (n : Int)
  | str (s : String)
deriving DecidableEq, Repr

/-- Fields of a `discord.Embed` the code sets (color omitted: it is a
pure function of the user id, `gen_color`). -/
structure Embed where
  description : String
  authorName : Option String
  attachField : Option String
deriving DecidableEq, Repr

/-- Outbound Discord calls, recorded in issue order.
`channelSend`/`channelSendM` post to the coordination channel
`self.channel`; `userSend` is a successfully delivered
`member.send` (with the attached re-uploaded filenames);
`progressSend`/`progressEdit`/`progressDelete` are the attachment
progress message lifecycle; `deleteCommandMessage` is
`message.delete()` of the staff command; `presenceSet` is
`change_presence`. -/
inductive Effect where
  | channelSend (text : String)
  | channelSendM (text : String) (embed : Embed)
  | userSend (uid : Int) (text : String) (files : List String)
  | addReaction (emoji : String)
  | channelTyping
  | progressSend (text : String)
  | progressEdit (text : String)
  | progressDelete
  | deleteCommandMessage
  | presenceSet (game : Option String)
deriving DecidableEq, Repr

/-- Mutable bot state: the persisted `ignored` table, the
`anti_spam_check` dict (total function defaulting to 0 — the code
initialises a missing key to 0 before every use, main.py:121-122), the
`last_id` pointer, the `already_ready` flag, and the
`anti_duplicate_replies` dict. -/
structure BotState where
  store : IgnoreStore
  spam : Int → Int
  last_id : Option Int
  already_ready : Bool
  antiDup : Tok → Option Bool

/-- Pointwise update of the `anti_spam_check` dict. -/
def updateFn (f : Int → Int) (k v : Int) : Int → Int :=
  fun x => if x = k then v else f x

/-- Result of one `on_message` invocation: the state at the end of the
handler, the outbound effects in order, and (for the DM branch) the
user id whose spam counter a detached `asyncio.sleep(seconds)`
continuation will decrement (main.py:168-169). -/
structure HandlerResult where
  state : BotState
  effects : List Effect
  schedDecrement : Option Int

/-- Drops the leading run of whitespace (Python `str.split` with no
separator skips leading whitespace). -/
def dropWS : List Char → List Char
  | [] => []
  | c :: cs => if c.isWhitespace then dropWS cs else c :: cs

/-- Splits off the leading run of non-whitespace characters. -/
def takeTok : List Char → List Char × List Char
  | [] => ([], [])
  | c :: cs =>
    if c.isWhitespace then ([], c :: cs)
    else
      let (t, r) := takeTok cs
      (c :: t, r)

/-- Embeds Python `s.split(maxsplit=1)`: strip leading whitespace; if
nothing remains the result is the empty list (`none`); otherwise the
first whitespace-delimited token, and — after skipping the whitespace
run following it — the verbatim remainder when non-empty. -/
def pySplitMax1 (s : String) : Option (String × Option String) :=
  match dropWS s.toList with
  | [] => none
  | c :: cs =>
    let (t, r) := takeTok (c :: cs)
    let rest := dropWS r
    some (String.mk t, if rest.isEmpty then none else some (String.mk rest))

/-- Accumulator pass of a decimal natural-number parse. -/
def parseNatAux : List Char → Nat → Option Nat
  | [], acc => some acc
  | c :: cs, acc =>
    if c.isDigit then parseNatAux cs (acc * 10 + (c.toNat - '0'.toNat))
    else none

/-- Embeds Python `int(s)` as used on user-id tokens (main.py:180, 248,
284): an optional minus sign followed by decimal digits; anything else
is the `ValueError` branch (`none`). -/
def pyInt? (s : String) : Option Int :=
  match s.toList with
  | [] => none
  | '-' :: cs =>
    match cs, parseNatAux cs 0 with
    | _ :: _, some n => some (-(n : Int))
    | _, _ => none
  | cs => (parseNatAux cs 0).map (fun n => (n : Int))

/-- Embeds Python `str.isdigit()` on a split token (ASCII digits). -/
def pyIsDigit (s : String) : Bool := s.toList.all Char.isDigit

/-- Embeds `discord.utils.escape_markdown` on attachment filenames:
a backslash is inserted before each markdown metacharacter. -/
def escape_markdown (s : String) : String :=
  String.mk (s.toList.flatMap
    (fun c => if c ∈ ['*', '_', '\x60', '~', '|', '\\'] then ['\\', c] else [c]))

/-- Per-attachment hard-error line (main.py:420-423). -/
def errLine (a : Attachment) : String :=
  let fn := escape_markdown a.filename
  s!"\x60{fn}\x60 is too large to send in a direct message."

/-- Per-attachment soft-warning line (main.py:424-429). -/
def warnLine (a : Attachment) : String :=
  let fn := escape_markdown a.filename
  s!"\x60{fn}\x60 is very close to the file size limit of the destination. It may fail to send."

/-- Footer appended to both the error and the warning message
(main.py:433-439 and 445-451); the Python f-strings evaluate to these
constants since `SIZE_LIMIT = 8388608` formats as `8.00` MiB and
`SIZE_LIMIT - SIZE_DIFF = 8386560` also rounds to `8.00` MiB under
`{:.02f}`. -/
def limitFooter : String :=
  "\nLimit: 8388608 bytes (8.00 MiB)\nRecommended Maximum: 8386560 bytes (8.00 MiB)"

/-- The classification loop of `handle_attachments` (main.py:418-429):
`size > SIZE_LIMIT` appends an error line; otherwise
`size > SIZE_LIMIT - 0x1000` appends a warning line; both lists keep
attachment order. -/
def classifyAttachments : List Attachment → List String × List String
  | [] => ([], [])
  | a :: rest =>
    let (es, ws) := classifyAttachments rest
    if SIZE_LIMIT < a.size then (errLine a :: es, ws)
    else if SIZE_LIMIT - 0x1000 < a.size then (es, warnLine a :: ws)
    else (es, ws)

/-- Bullet-list string `"\N{BULLET} " + "\n\N{BULLET} ".join(lines)`. -/
def bulletJoin (lines : List String) : String :=
  "• " ++ String.intercalate "\n• " lines

/-- Markdown link line for one attachment,
`f"[{filename}]({url}) ({size} bytes)"`. -/
def attachmentLine (a : Attachment) : String :=
  let fn := a.filename
  let u := a.url
  let sz := a.size
  s!"[{fn}]({u}) ({sz} bytes)"

/-- Progress message text `f"Downloading attachments... {i}/{count}"`
(main.py:455 and 460). -/
def downloadingText (i n : Nat) : String := s!"Downloading attachments... {i}/{n}"

/-- Progress edit text before delivery (main.py:378-380). -/
def sendingMsgText (n : Nat) : String := s!"Sending message with {n} attachments..."

/-- Embeds `ModMail.handle_attachments` (main.py:407-461).  Returns the
effects it issues and, on success, the staged filenames together with
whether a progress message exists; `none` in the second component is
the `raise ValueError` after posting the aggregated error message.
With no attachments it returns `([], some ([], false))`
(main.py:411-412).  Otherwise errors abort before any staging; a
non-empty warning list is posted first; then the progress message is
posted and edited once per downloaded attachment. -/
def handle_attachments (msg : Message) : List Effect × Option (List String × Bool) :=
  if msg.attachments.isEmpty then ([], some ([], false))
  else
    let (error_messages, warning_messages) := classifyAttachments msg.attachments
    if !error_messages.isEmpty then
      let final := String.intercalate "\n" error_messages ++ limitFooter
      ([Effect.channelSend final], none)
    else
      let warnEffs :=
        if !warning_messages.isEmpty then
          [Effect.channelSend (String.intercalate "\n" warning_messages ++ limitFooter)]
        else []
      let count := msg.attachments.length
      let progressEffs :=
        Effect.progressSend (downloadingText 0 count) ::
          (List.range count).map (fun i => Effect.progressEdit (downloadingText (i + 1) count))
      (warnEffs ++ progressEffs, some (msg.attachments.map (fun a => a.filename), true))

/-- Embeds `ModMail.handle_ignore` (main.py:238-280).  Parses the id
token (`ValueError` → error message), calls `add_ignore`; on success,
unless quiet, best-effort notifies the target (member missing or
`Forbidden` produce a coordination-channel note instead), then posts
the confirmation; on a duplicate posts "already ignored". -/
def handle_ignore (cfg : Config) (w : World) (st : BotState) (msg : Message)
    (user_id_str : String) (reason : Option String) (quiet : Bool) :
    BotState × List Effect :=
  match pyInt? user_id_str with
  | none => (st, [Effect.channelSend "Could not convert to int."])
  | some user_id =>
    let member := w.guildMember user_id
    let (ok, store') := add_ignore st.store user_id reason quiet
    if ok then
      let notifyEffs :=
        if !quiet then
          let to_send := "Your messages are being ignored by staff." ++
            (match reason with
             | some r => " Reason: " ++ r
             | none => "")
          match member with
          | some _ =>
            if w.dmDeliverable user_id then [Effect.userSend user_id to_send []]
            else
              let men := mention user_id
              [Effect.channelSend
                s!"{men} has disabled DMs or is not in a shared server, not sending reason."]
          | none =>
            [Effect.channelSend "Failed to find user with ID, not sending reason."]
        else []
      let amen := mention msg.author_id
      let p := cfg.pfx
      ({ st with store := store' },
        notifyEffs ++
          [Effect.channelSend
            s!"{amen} {user_id} is now ignored. Messages from this user will not appear. Use \x60{p}unignore\x60 to reverse."])
    else
      let amen := mention msg.author_id
      (st, [Effect.channelSend s!"{amen} {user_id} is already ignored."])

/-- Success report of the unignore command (main.py:308-311). -/
def unignoredMsg (cfg : Config) (author_id user_id : Int) : String :=
  let amen := mention author_id
  let p := cfg.pfx
  s!"{amen} {user_id} is no longer ignored. Messages from this user will appear again. Use \x60{p}ignore\x60 to reverse."

/-- Report when the unignore target had no entry (main.py:312-315). -/
def notIgnoredMsg (author_id user_id : Int) : String :=
  let amen := mention author_id
  s!"{amen} {user_id} is not ignored."

/-- Embeds `ModMail.handle_unignore` (main.py:282-315).  Parses the id
token; reads the existing entry first (main.py:290-292) so the
notify decision uses the pre-removal quiet flag; best-effort notifies
when the prior entry was non-quiet; then removes the entry and reports
the outcome from the deletion rowcount. -/
def handle_unignore (cfg : Config) (w : World) (st : BotState) (msg : Message)
    (user_id_str : String) : BotState × List Effect :=
  match pyInt? user_id_str with
  | none => (st, [Effect.channelSend "Could not convert to int."])
  | some user_id =>
    let member := w.guildMember user_id
    let ignored := is_ignored st.store user_id
    let notifyEffs :=
      match ignored with
      | some entry =>
        if !entry.quiet then
          match member with
          | some _ =>
            if w.dmDeliverable user_id then
              [Effect.userSend user_id
                "Your messages are no longer being ignored by staff." []]
            else
              let men := mention user_id
              [Effect.channelSend
                s!"{men} has disabled DMs or is not in a shared server, not sending notification."]
          | none =>
            [Effect.channelSend "Failed to find user with ID, not sending notification."]
        else []
      | none => []
    let (rows, store') := remove_ignore st.store user_id
    let report :=
      if 0 < rows then
        [Effect.channelSend (unignoredMsg cfg msg.author_id user_id)]
      else
        [Effect.channelSend (notIgnoredMsg msg.author_id user_id)]
    ({ st with store := store' }, notifyEffs ++ report)

/-- Failure report posted when `member.send` raises
`discord.Forbidden` in the staff-reply protocol (main.py:383-386). -/
def disabledDMsMsg (author_id user_id : Int) : String :=
  let amen := mention author_id
  let tmen := mention user_id
  s!"{amen} {tmen} has disabled DMs"

/-- Embeds `ModMail.handle_staff_reply` (main.py:355-405).  Member
lookup failure and bot targets are refused with a channel message;
`handle_attachments` raising `ValueError` aborts with only its own
effects; an existing progress message is edited to "Sending ...";
a `discord.Forbidden` from `member.send` (modelled by
`dmDeliverable = false`) posts the failure report and stops — no
confirmation, no progress deletion, no `message.delete()`.  On
delivery: the confirmation embed (with " (replies ignored)" appended
to the header when the target is ignored, and the re-uploaded
attachment names as a field), progress deletion, and deletion of the
original staff command message. -/
def handle_staff_reply (cfg : Config) (w : World) (st : BotState) (msg : Message)
    (user_id : Int) (message_content : String) : BotState × List Effect :=
  match w.guildMember user_id with
  | none => (st, [Effect.channelSend "Failed to find member."])
  | some member =>
    if member.bot then (st, [Effect.channelSend "You can't send messages to bots."])
    else
      let amen := mention msg.author_id
      let to_send :=
        (if cfg.anonymous_staff then "Staff reply: " else s!"{amen}: ") ++ message_content
      match handle_attachments msg with
      | (attEffs, none) => (st, attEffs)
      | (attEffs, some (files, hasProgress)) =>
        let editEffs :=
          if hasProgress then [Effect.progressEdit (sendingMsgText files.length)]
          else []
        if !w.dmDeliverable user_id then
          (st, attEffs ++ editEffs ++
            [Effect.channelSend (disabledDMsMsg msg.author_id user_id)])
        else
          let tmen := mention user_id
          let header :=
            s!"{amen} replying to {user_id} {tmen}" ++
              (if (is_ignored st.store user_id).isSome then " (replies ignored)" else "")
          let embed : Embed :=
            { description := message_content
              authorName := none
              attachField :=
                if files.isEmpty then none else some (bulletJoin files) }
          (st, attEffs ++ editEffs ++
            [Effect.userSend user_id to_send files,
             Effect.channelSendM header embed] ++
            (if hasProgress then [Effect.progressDelete] else []) ++
            [Effect.deleteCommandMessage])

/-- Embeds `ModMail.on_typing` (main.py:317-325): a typing event in a
DM channel forwards typing to the coordination channel unless the user
is ignored.  Note there is no `already_ready` gate on this handler. -/
def on_typing (st : BotState) (isDM : Bool) (uid : Int) : List Effect :=
  if isDM then
    if (is_ignored st.store uid).isNone then [Effect.channelTyping] else []
  else []

/-- Display-name resolution for the DM embed (main.py:134-153): the
loop checks only the first guild (the `break` is unconditional); a
found member with a nickname renders as `"nick (member)"`. -/
def dmAuthorName (w : World) (msg : Message) : String :=
  match w.guildMember msg.author_id with
  | some m =>
    match m.nick with
    | some n =>
      let nm := m.name
      s!"{n} ({nm})"
    | none => m.name
  | none => msg.author_name

/-- Notice posted on an automatic anti-spam ignore (main.py:127-130). -/
def autoIgnoreNotice (cfg : Config) (uid : Int) : String :=
  let men := mention uid
  let p := cfg.pfx
  s!"{uid} {men} auto-ignored due to spam. Use \x60{p}unignore\x60 to reverse."

/-- Embeds the direct-message branch of `ModMail.on_message`
(main.py:117-169).  An ignored author returns with nothing done.
Otherwise the spam counter is incremented (missing keys start at 0);
reaching `threshold` triggers the automatic ignore, the notice, a
reset to 0 and a return without relaying.  Below threshold the embed
relay is posted, the receipt reaction added, `last_id` set, and the
detached post-`sleep(seconds)` decrement scheduled. -/
def dmBranch (cfg : Config) (w : World) (st : BotState) (msg : Message) :
    HandlerResult :=
  let uid := msg.author_id
  if (is_ignored st.store uid).isSome then ⟨st, [], none⟩
  else
    let c := st.spam uid + 1
    if cfg.threshold ≤ c then
      let store' := (add_ignore st.store uid (some "Automatic anti-spam ignore") false).2
      ⟨{ st with store := store', spam := updateFn st.spam uid 0 },
        [Effect.channelSend (autoIgnoreNotice cfg uid)],
        none⟩
    else
      let embed : Embed :=
        { description := msg.content
          authorName := some (dmAuthorName w msg)
          attachField :=
            if msg.attachments.isEmpty then none
            else some (bulletJoin (msg.attachments.map attachmentLine)) }
      ⟨{ st with spam := updateFn st.spam uid c, last_id := some uid },
        [Effect.channelSendM s!"{uid}" embed, Effect.addReaction "✅"],
        some uid⟩

/-- Embeds Python `message.content.startswith(prefix)` at the
character level. -/
def pyStartsWith (s pre : String) : Bool := pre.toList.isPrefixOf s.toList

/-- Embeds the Python slice `message.content[len(prefix):]` at the
character level. -/
def pyDropChars (s : String) (n : Nat) : String := String.mk (s.toList.drop n)

/-- Reply of the `m` command, `f"{self.last_id} <@!{self.last_id}>"`
(main.py:223). -/
def mLastMsg (lid : Int) : String := s!"{lid} <@!{lid}>"

/-- Writes the `anti_duplicate_replies` flag for the first token after
the `await asyncio.sleep(2)` at the end of the coordination branch
(main.py:235-236).  The flag is only ever assigned `False`. -/
def setDup (arg0 : Tok) : BotState × List Effect → BotState × List Effect :=
  fun r =>
    ({ r.1 with antiDup := fun t => if t = arg0 then some false else r.1.antiDup t },
     r.2)

/-- Embeds the coordination-channel branch of `ModMail.on_message`
(main.py:171-236): prefix check, `split(maxsplit=1)`, `isdigit`
re-tagging of the first token, the `match args` dispatch, and — for
every path that does not `return` out of the handler — the trailing
2-second sleep followed by `anti_duplicate_replies[args[0]] = False`
(applied here via `setDup`). -/
def coordBranch (cfg : Config) (w : World) (st : BotState) (msg : Message) :
    BotState × List Effect :=
  if !pyStartsWith msg.content cfg.pfx then (st, [])
  else
    match pySplitMax1 (pyDropChars msg.content cfg.pfx.length) with
    | none => (st, [])
    | some (tok0, rest) =>
      let arg0 : Tok :=
        if pyIsDigit tok0 then Tok.num ((pyInt? tok0).getD 0) else Tok.str tok0
      match arg0, rest with
      | Tok.str "ignore", none =>
        setDup arg0 (st, [Effect.channelSend "Did you forget to enter an ID?"])
      | Tok.str "qignore", none =>
        setDup arg0 (st, [Effect.channelSend "Did you forget to enter an ID?"])
      | Tok.str "unignore", none =>
        setDup arg0 (st, [Effect.channelSend "Did you forget to enter an ID?"])
      | Tok.str "ignore", some params =>
        match pySplitMax1 params with
        | some (u, r) => setDup arg0 (handle_ignore cfg w st msg u r false)
        | none => (st, [])
      | Tok.str "qignore", some params =>
        match pySplitMax1 params with
        | some (u, r) => setDup arg0 (handle_ignore cfg w st msg u r true)
        | none => (st, [])
      | Tok.str "unignore", some params =>
        match pySplitMax1 params with
        | some (u, _) => setDup arg0 (handle_unignore cfg w st msg u)
        | none => (st, [])
      | Tok.num user_id, mc =>
        if mc.isNone && msg.attachments.isEmpty then
          (st, [Effect.channelSend "Did you forget to enter a message?"])
        else
          setDup arg0 (handle_staff_reply cfg w st msg user_id (mc.getD ""))
      | Tok.str "r", mc =>
        match st.last_id with
        | some lid =>
          if mc.isNone && msg.attachments.isEmpty then
            (st, [Effect.channelSend "Did you forget to enter a message?"])
          else
            setDup arg0 (handle_staff_reply cfg w st msg lid (mc.getD ""))
        | none =>
          (st, [Effect.channelSend "There is no last message in the current session."])
      | Tok.str "m", _ =>
        match st.last_id with
        | some lid =>
          setDup arg0 (st, [Effect.channelSend (mLastMsg lid)])
        | none =>
          (st, [Effect.channelSend "There is no last message in the current session."])
      | Tok.str "fixgame", _ =>
        setDup arg0 (st,
          [Effect.presenceSet none, Effect.presenceSet (some cfg.playing),
           Effect.channelSend "Game presence re-set."])
      | _, _ => setDup arg0 (st, [])

/-- Embeds `ModMail.on_message` (main.py:110-236): bot authors return
first (main.py:112-113), then the `already_ready` gate
(main.py:114-115), then the DM branch, the coordination-channel
branch, or nothing for other channels. -/
def on_message (cfg : Config) (w : World) (st : BotState) (msg : Message) :
    HandlerResult :=
  if msg.author_bot then ⟨st, [], none⟩
  else if !st.already_ready then ⟨st, [], none⟩
  else
    match msg.channel with
    | Channel.dm => dmBranch cfg w st msg
    | Channel.coordination =>
      let r := coordBranch cfg w st msg
      ⟨r.1, r.2, none⟩
    | Channel.other => ⟨st, [], none⟩

/-- System state for the trace semantics: the bot state plus the
multiset (as a list) of user ids with a detached anti-spam decrement
scheduled by `asyncio.sleep(seconds)` but not yet fired
(main.py:168-169). -/
structure SysState where
  bot : BotState
  pending : List Int

/-- Events of the trace semantics: delivery of an inbound message
(the handler body runs atomically on the cooperative event loop), or
the firing of one scheduled decrement. -/
inductive Event where
  | msg (m : Message)
  | dec (uid : Int)

/-- One step: a message event runs `on_message` and appends any newly
scheduled decrement; a decrement event fires only when one is pending
for that user and performs the unfloored
`anti_spam_check[author.id] -= 1` of main.py:169. -/
def step (cfg : Config) (w : World) (s : SysState) : Event → Option SysState
  | Event.msg m =>
    let r := on_message cfg w s.bot m
    some ⟨r.state,
      s.pending ++ (match r.schedDecrement with
        | some u => [u]
        | none => [])⟩
  | Event.dec u =>
    if u ∈ s.pending then
      some ⟨{ s.bot with spam := updateFn s.bot.spam u (s.bot.spam u - 1) },
        s.pending.erase u⟩
    else none

/-- Runs a sequence of events from a state; `none` if an event is not
enabled. -/
def run (cfg : Config) (w : World) (s : SysState) : List Event → Option SysState
  | [] => some s
  | e :: es =>
    match step cfg w s e with
    | some s' => run cfg w s' es
    | none => none

/-- Checks, along a trace, that every decrement fires while the
corresponding counter is still strictly positive (i.e. no decrement
is left over from before an auto-ignore reset). -/
def decsPositive (cfg : Config) (w : World) : SysState → List Event → Bool
  | _, [] => true
  | s, e :: es =>
    (match e with
     | Event.dec u => decide (0 < s.bot.spam u)
     | Event.msg _ => true) &&
    (match step cfg w s e with
     | some s' => decsPositive cfg w s' es
     | none => true)

/-! ### Preservation lemmas for the spam counter -/

theorem setDup_fst_spam (a : Tok) (r : BotState × List Effect) :
    ((setDup a r).1).spam = r.1.spam := rfl

theorem handle_ignore_spam (cfg : Config) (w : World) (st : BotState)
    (msg : Message) (u : String) (r : Option String) (q : Bool) :
    (handle_ignore cfg w st msg u r q).1.spam = st.spam := by
  unfold handle_ignore
  rcases pyInt? u with _ | uid
  · rfl
  · simp only
    rcases add_ignore st.store uid r q with ⟨ok, store'⟩
    cases ok <;> rfl

theorem handle_unignore_spam (cfg : Config) (w : World) (st : BotState)
    (msg : Message) (u : String) :
    (handle_unignore cfg w st msg u).1.spam = st.spam := by
  unfold handle_unignore
  rcases pyInt? u with _ | uid
  · rfl
  · rfl

theorem handle_staff_reply_spam (cfg : Config) (w : World) (st : BotState)
    (msg : Message) (uid : Int) (c : String) :
    (handle_staff_reply cfg w st msg uid c).1.spam = st.spam := by
  unfold handle_staff_reply
  rcases w.guildMember uid with _ | m
  · rfl
  · simp only
    cases m.bot
    · simp only [Bool.false_eq_true, if_false]
      rcases handle_attachments msg with ⟨effs, _ | ⟨files, hasP⟩⟩
      · rfl
      · simp only
        cases w.dmDeliverable uid <;> rfl
    · rfl

theorem coordBranch_spam (cfg : Config) (w : World) (st : BotState)
    (msg : Message) :
    (coordBranch cfg w st msg).1.spam = st.spam := by
  unfold coordBranch
  repeat'
    first
    | simp only [setDup_fst_spam, handle_ignore_spam, handle_unignore_spam,
        handle_staff_reply_spam]
    | split

theorem updateFn_nonneg (f : Int → Int) (k v : Int)
    (hf : ∀ u, 0 ≤ f u) (hv : 0 ≤ v) : ∀ u, 0 ≤ updateFn f k v u := by
  intro u
  unfold updateFn
  split
  · exact hv
  · exact hf u

theorem dmBranch_spam_nonneg (cfg : Config) (w : World) (st : BotState)
    (msg : Message) (h : ∀ u, 0 ≤ st.spam u) :
    ∀ u, 0 ≤ (dmBranch cfg w st msg).state.spam u := by
  intro u
  unfold dmBranch
  by_cases hig : (is_ignored st.store msg.author_id).isSome
  · simp [hig]
    exact h u
  · by_cases hth : cfg.threshold ≤ st.spam msg.author_id + 1
    · simp [hig, hth]
      exact updateFn_nonneg _ _ _ h le_rfl u
    · simp [hig, hth]
      refine updateFn_nonneg _ _ _ h ?_ u
      have := h msg.author_id
      omega

theorem on_message_spam_nonneg (cfg : Config) (w : World) (st : BotState)
    (msg : Message) (h : ∀ u, 0 ≤ st.spam u) :
    ∀ u, 0 ≤ (on_message cfg w st msg).state.spam u := by
  unfold on_message
  split
  · exact h
  · split
    · exact h
    · split
      · exact dmBranch_spam_nonneg cfg w st msg h
      · intro u
        rw [coordBranch_spam]
        exact h u
      · exact h

theorem step_spam_nonneg (cfg : Config) (w : World) (s s' : SysState)
    (e : Event) (h0 : ∀ u, 0 ≤ s.bot.spam u)
    (hd : ∀ u, e = Event.dec u → 0 < s.bot.spam u)
    (hstep : step cfg w s e = some s') : ∀ u, 0 ≤ s'.bot.spam u := by
  cases e with
  | msg m =>
    simp only [step, Option.some.injEq] at hstep
    subst hstep
    exact on_message_spam_nonneg cfg w s.bot m h0
  | dec v =>
    simp only [step] at hstep
    split at hstep
    · simp only [Option.some.injEq] at hstep
      subst hstep
      have hv := hd v rfl
      refine updateFn_nonneg _ _ _ h0 ?_
      omega
    · exact absurd hstep (by simp)

/-! ### Lemmas about attachment handling -/

theorem classifyAttachments_fst_nil (l : List Attachment)
    (h : ∀ x ∈ l, x.size ≤ SIZE_LIMIT) : (classifyAttachments l).1 = [] := by
  induction l with
  | nil => rfl
  | cons a rest ih =>
    have ha : ¬ SIZE_LIMIT < a.size := Nat.not_lt.mpr (h a (List.mem_cons_self a rest))
    have hr := ih (fun x hx => h x (List.mem_cons_of_mem a hx))
    rcases hcr : classifyAttachments rest with ⟨es, ws⟩
    rw [hcr] at hr
    simp only at hr
    simp only [classifyAttachments, hcr, ha, if_false]
    split <;> simpa using hr

/-- With no attachment above the hard limit, `handle_attachments` does
not raise. -/
theorem handle_attachments_ok (msg : Message)
    (h : ∀ x ∈ msg.attachments, x.size ≤ SIZE_LIMIT) :
    (handle_attachments msg).2.isSome = true := by
  unfold handle_attachments
  split
  · rfl
  · rcases hcl : classifyAttachments msg.attachments with ⟨es, ws⟩
    have hes : es = [] := by
      have := classifyAttachments_fst_nil msg.attachments h
      rw [hcl] at this
      simpa using this
    subst hes
    simp

/-- Effect constructors `handle_attachments` can emit: plain channel
sends (size warnings/errors) and the progress message lifecycle. -/
def stagingEffect : Effect → Bool := fun e =>
  match e with
  | Effect.channelSend _ => true
  | Effect.progressSend _ => true
  | Effect.progressEdit _ => true
  | _ => false

theorem handle_attachments_effects_staging (msg : Message) :
    ∀ e ∈ (handle_attachments msg).1, stagingEffect e = true := by
  unfold handle_attachments
  split
  · simp
  · rcases hcl : classifyAttachments msg.attachments with ⟨es, ws⟩
    simp only
    split
    · intro e he
      simp only [List.mem_singleton] at he
      subst he
      rfl
    · intro e he
      simp only [List.mem_append, List.mem_cons, List.mem_map, List.mem_range] at he
      rcases he with hw | he | ⟨i, _, rfl⟩
      · revert hw
        split
        · intro hw
          simp only [List.mem_singleton] at hw
          subst hw
          rfl
        · intro hw
          simp at hw
      · subst he
        rfl
      · rfl

/-! ### Concrete fixtures used by witnesses and counterexamples -/

/-- Sample configuration: command prefix `!`, anti-spam threshold 2,
1-second window, attributed staff replies. -/
def cfg0 : Config := ⟨"!", 2, 1, false, "game"⟩

/-- Sample world: no guild members resolvable, no DMs deliverable. -/
def w0 : World := ⟨fun _ => none, fun _ => false⟩

/-- Sample world where user 7 is a resolvable non-bot member with
deliverable DMs. -/
def w7 : World :=
  ⟨fun u => if u = 7 then some ⟨"seven", none, false⟩ else none,
   fun u => u = 7⟩

/-- Sample world where user 7 is a resolvable non-bot member whose DMs
are refused. -/
def wNoDM : World :=
  ⟨fun u => if u = 7 then some ⟨"seven", none, false⟩ else none,
   fun _ => false⟩

/-- Sample ready state with empty stores. -/
def st0 : BotState := ⟨[], fun _ => 0, none, true, fun _ => none⟩

/-- Sample direct message from a given user. -/
def dmMsg (uid : Int) : Message := ⟨uid, false, "user", Channel.dm, "hello", []⟩

/-! ### Claims -/

/-- C1: a direct message from an ignored user is dropped totally — the
handler returns with no effects (no coordination-channel post, no
reaction), no change to any state component (spam counter and
`last_id` included), and no scheduled decrement. -/
theorem C1_ignored_dm_dropped (cfg : Config) (w : World) (st : BotState)
    (msg : Message) (entry : IgnoreEntry)
    (hbot : msg.author_bot = false) (hready : st.already_ready = true)
    (hch : msg.channel = Channel.dm)
    (hign : is_ignored st.store msg.author_id = some entry) :
    on_message cfg w st msg = ⟨st, [], none⟩ := by
  simp [on_message, dmBranch, hbot, hready, hch, hign]

/-- Witness for C1 at a concrete ignored user. -/
theorem C1_witness :
    (dmMsg 7).author_bot = false ∧
    ({ st0 with store := [(7, ⟨false, none⟩)] } : BotState).already_ready = true ∧
    (dmMsg 7).channel = Channel.dm ∧
    is_ignored [(7, ⟨false, none⟩)] (dmMsg 7).author_id = some ⟨false, none⟩ ∧
    on_message cfg0 w0 { st0 with store := [(7, ⟨false, none⟩)] } (dmMsg 7) =
      ⟨{ st0 with store := [(7, ⟨false, none⟩)] }, [], none⟩ :=
  ⟨rfl, rfl, rfl, rfl,
    C1_ignored_dm_dropped cfg0 w0 _ _ ⟨false, none⟩ rfl rfl rfl rfl⟩

/-- C2: for a user with no existing entry, `add_ignore` succeeds and
creates the entry; an immediately repeated `add_ignore` returns
`false` and leaves the store — and hence the stored quiet flag and
reason — exactly as the first call wrote them. -/
theorem C2_add_ignore_unique (store : IgnoreStore) (uid : Int)
    (r1 r2 : Option String) (q1 q2 : Bool)
    (h : is_ignored store uid = none) :
    (add_ignore store uid r1 q1).1 = true ∧
    (add_ignore (add_ignore store uid r1 q1).2 uid r2 q2).1 = false ∧
    (add_ignore (add_ignore store uid r1 q1).2 uid r2 q2).2 =
      (add_ignore store uid r1 q1).2 ∧
    is_ignored (add_ignore store uid r1 q1).2 uid = some ⟨q1, r1⟩ := by
  have h1 : add_ignore store uid r1 q1 = (true, (uid, ⟨q1, r1⟩) :: store) := by
    simp [add_ignore, h]
  have h2 : is_ignored ((uid, (⟨q1, r1⟩ : IgnoreEntry)) :: store) uid =
      some ⟨q1, r1⟩ := by
    simp [is_ignored, List.find?]
  rw [h1]
  refine ⟨rfl, ?_, ?_, h2⟩ <;> simp [add_ignore, h2]

/-- Witness for C2 on the empty store. -/
theorem C2_witness :
    is_ignored [] 7 = none ∧
    ((add_ignore [] 7 (some "why") true).1 = true ∧
     (add_ignore (add_ignore [] 7 (some "why") true).2 7 none false).1 = false ∧
     (add_ignore (add_ignore [] 7 (some "why") true).2 7 none false).2 =
       (add_ignore [] 7 (some "why") true).2 ∧
     is_ignored (add_ignore [] 7 (some "why") true).2 7 = some ⟨true, some "why"⟩) :=
  ⟨rfl, C2_add_ignore_unique [] 7 (some "why") none true false rfl⟩

/-- C10: a message from any bot author returns before every other
check: no effects, no state change, no scheduled decrement, regardless
of readiness, channel, or content. -/
theorem C10_bot_author_dropped (cfg : Config) (w : World) (st : BotState)
    (msg : Message) (h : msg.author_bot = true) :
    on_message cfg w st msg = ⟨st, [], none⟩ := by
  simp [on_message, h]

/-- C3: when a non-ignored DM author's post-increment spam count
reaches the threshold, the handler adds exactly one ignore entry with
the fixed reason "Automatic anti-spam ignore", posts exactly one
notice to the coordination channel (and nothing else — in particular
the triggering message is not relayed and no reaction is added),
resets that user's counter to 0 leaving other counters and `last_id`
untouched, and schedules no decrement. -/
theorem C3_antispam_trip (cfg : Config) (w : World) (st : BotState)
    (msg : Message)
    (hbot : msg.author_bot = false) (hready : st.already_ready = true)
    (hch : msg.channel = Channel.dm)
    (hign : is_ignored st.store msg.author_id = none)
    (hth : cfg.threshold ≤ st.spam msg.author_id + 1) :
    (on_message cfg w st msg).state.store =
      (msg.author_id, ⟨false, some "Automatic anti-spam ignore"⟩) :: st.store ∧
    (on_message cfg w st msg).effects =
      [Effect.channelSend (autoIgnoreNotice cfg msg.author_id)] ∧
    (on_message cfg w st msg).state.spam msg.author_id = 0 ∧
    (∀ v, v ≠ msg.author_id → (on_message cfg w st msg).state.spam v = st.spam v) ∧
    (on_message cfg w st msg).state.last_id = st.last_id ∧
    (on_message cfg w st msg).schedDecrement = none := by
  have hmain : on_message cfg w st msg =
      ⟨{ st with
          store := (msg.author_id, ⟨false, some "Automatic anti-spam ignore"⟩) :: st.store,
          spam := updateFn st.spam msg.author_id 0 },
        [Effect.channelSend (autoIgnoreNotice cfg msg.author_id)],
        none⟩ := by
    simp [on_message, dmBranch, hbot, hready, hch, hign, hth, add_ignore]
  rw [hmain]
  refine ⟨rfl, rfl, ?_, ?_, rfl, rfl⟩
  · simp [updateFn]
  · intro v hv
    simp [updateFn, hv]

/-- Witness for C3: user 7 with counter 1 and threshold 2 trips on the
next message. -/
theorem C3_witness :
    (dmMsg 7).author_bot = false ∧
    ({ st0 with spam := updateFn st0.spam 7 1 } : BotState).already_ready = true ∧
    (dmMsg 7).channel = Channel.dm ∧
    is_ignored st0.store (dmMsg 7).author_id = none ∧
    cfg0.threshold ≤ ({ st0 with spam := updateFn st0.spam 7 1 } : BotState).spam (dmMsg 7).author_id + 1 ∧
    ((on_message cfg0 w0 { st0 with spam := updateFn st0.spam 7 1 } (dmMsg 7)).state.store =
      ((dmMsg 7).author_id, ⟨false, some "Automatic anti-spam ignore"⟩) :: st0.store ∧
     (on_message cfg0 w0 { st0 with spam := updateFn st0.spam 7 1 } (dmMsg 7)).effects =
      [Effect.channelSend (autoIgnoreNotice cfg0 (dmMsg 7).author_id)] ∧
     (on_message cfg0 w0 { st0 with spam := updateFn st0.spam 7 1 } (dmMsg 7)).state.spam (dmMsg 7).author_id = 0 ∧
     (∀ v, v ≠ (dmMsg 7).author_id →
       (on_message cfg0 w0 { st0 with spam := updateFn st0.spam 7 1 } (dmMsg 7)).state.spam v =
         ({ st0 with spam := updateFn st0.spam 7 1 } : BotState).spam v) ∧
     (on_message cfg0 w0 { st0 with spam := updateFn st0.spam 7 1 } (dmMsg 7)).state.last_id =
       ({ st0 with spam := updateFn st0.spam 7 1 } : BotState).last_id ∧
     (on_message cfg0 w0 { st0 with spam := updateFn st0.spam 7 1 } (dmMsg 7)).schedDecrement = none) :=
  ⟨rfl, rfl, rfl, rfl, by decide,
    C3_antispam_trip cfg0 w0 _ _ rfl rfl rfl rfl (by decide)⟩

/-- C4 counterexample: the spam counter CAN become negative.  With
threshold 2, user 7 sends a first message (relayed; a decrement is
scheduled for after the cooldown), then a second message that trips
the auto-ignore and resets the counter to 0; when the pending
decrement from the first message then fires
(`anti_spam_check[author.id] -= 1`, main.py:169, which has no floor),
the counter reaches `-1`. -/
theorem C4_counterexample :
    (run cfg0 w0 ⟨st0, []⟩
        [Event.msg (dmMsg 7), Event.msg (dmMsg 7), Event.dec 7]).map
      (fun s => s.bot.spam 7) = some (-1) := by
  rfl

/-- C4 amended: the delayed decrement is a plain unfloored
subtraction, so the counter stays non-negative only on traces where
every scheduled decrement fires while the counter is still strictly
positive (in particular, no decrement is left pending across an
auto-ignore reset); on such traces every user's counter is `≥ 0` in
every reachable state. -/
theorem C4_amended_spam_nonneg (cfg : Config) (w : World)
    (events : List Event) (s0 sF : SysState)
    (h0 : ∀ u, 0 ≤ s0.bot.spam u)
    (hrun : run cfg w s0 events = some sF)
    (hpos : decsPositive cfg w s0 events = true) :
    ∀ u, 0 ≤ sF.bot.spam u := by
  induction events generalizing s0 with
  | nil =>
    simp only [run, Option.some.injEq] at hrun
    subst hrun
    exact h0
  | cons e es ih =>
    simp only [run] at hrun
    rcases hstep : step cfg w s0 e with _ | s1
    · rw [hstep] at hrun
      exact absurd hrun (by simp)
    · rw [hstep] at hrun
      simp only [decsPositive, hstep, Bool.and_eq_true] at hpos
      refine ih s1 ?_ hrun hpos.2
      refine step_spam_nonneg cfg w s0 s1 e h0 ?_ hstep
      intro u hu
      subst hu
      have := hpos.1
      simpa using this

/-- Witness for C4 amended: a well-timed trace (message, then its
decrement firing while the counter is 1) keeps all counters at `≥ 0`;
the `run` hypothesis is satisfiable on it. -/
theorem C4_amended_witness :
    (∀ u, 0 ≤ (⟨st0, []⟩ : SysState).bot.spam u) ∧
    decsPositive cfg0 w0 ⟨st0, []⟩ [Event.msg (dmMsg 7), Event.dec 7] = true ∧
    (run cfg0 w0 ⟨st0, []⟩ [Event.msg (dmMsg 7), Event.dec 7]).isSome = true ∧
    (∀ sF, run cfg0 w0 ⟨st0, []⟩ [Event.msg (dmMsg 7), Event.dec 7] = some sF →
      ∀ u, 0 ≤ sF.bot.spam u) :=
  ⟨fun _ => le_refl 0, by rfl, by rfl,
    fun sF hrun =>
      C4_amended_spam_nonneg cfg0 w0 [Event.msg (dmMsg 7), Event.dec 7]
        ⟨st0, []⟩ sF (fun _ => le_refl 0) hrun (by rfl)⟩

/-- Observer: is this effect a delivered direct-message send? -/
def isUserSend : Effect → Bool := fun e =>
  match e with
  | Effect.userSend _ _ _ => true
  | _ => false

/-- Observer: is this effect the confirmation embed post? -/
def isConfirmEmbed : Effect → Bool := fun e =>
  match e with
  | Effect.channelSendM _ _ => true
  | _ => false

/-- Observer: is this effect the deletion of the staff command? -/
def isDeleteCommand : Effect → Bool := fun e =>
  match e with
  | Effect.deleteCommandMessage => true
  | _ => false

theorem stagingEffect_not_userSend (e : Effect) (h : stagingEffect e = true) :
    isUserSend e = false := by
  cases e <;> simp_all [stagingEffect, isUserSend]

theorem stagingEffect_not_confirm (e : Effect) (h : stagingEffect e = true) :
    isConfirmEmbed e = false := by
  cases e <;> simp_all [stagingEffect, isConfirmEmbed]

theorem stagingEffect_not_delete (e : Effect) (h : stagingEffect e = true) :
    isDeleteCommand e = false := by
  cases e <;> simp_all [stagingEffect, isDeleteCommand]

/-- C5: attachment classification is boundary-inclusive.  An
attachment of size exactly `SIZE_LIMIT` is accepted — it only draws
the soft warning, staging proceeds, and the staff reply is delivered
to the target.  An attachment of size `SIZE_LIMIT + 1` draws the hard
error: the aggregated error message is posted, `ValueError` aborts the
relay, and no DM send happens at all — including for the other,
in-limit attachment of the same message. -/
theorem C5_attachment_size_boundary (cfg : Config) (w : World) (st : BotState)
    (msgA msgB : Message) (uid : Int) (m : MemberInfo)
    (a b other : Attachment) (c : String)
    (hm : w.guildMember uid = some m) (hmbot : m.bot = false)
    (hdm : w.dmDeliverable uid = true)
    (hA : msgA.attachments = [a]) (hsa : a.size = SIZE_LIMIT)
    (hB : msgB.attachments = [b, other]) (hsb : b.size = SIZE_LIMIT + 1)
    (hother : other.size ≤ SIZE_LIMIT) :
    handle_attachments msgA =
      ([Effect.channelSend (warnLine a ++ limitFooter),
        Effect.progressSend (downloadingText 0 1),
        Effect.progressEdit (downloadingText 1 1)],
       some ([a.filename], true)) ∧
    (handle_staff_reply cfg w st msgA uid c).2.any isUserSend = true ∧
    handle_attachments msgB = ([Effect.channelSend (errLine b ++ limitFooter)], none) ∧
    (handle_staff_reply cfg w st msgB uid c).2 =
      [Effect.channelSend (errLine b ++ limitFooter)] ∧
    (handle_staff_reply cfg w st msgB uid c).2.any isUserSend = false := by
  have hnoerr : ¬ SIZE_LIMIT < a.size := by omega
  have hwarn : SIZE_LIMIT - 0x1000 < a.size := by
    rw [hsa]
    decide
  have hclA : classifyAttachments [a] = ([], [warnLine a]) := by
    simp [classifyAttachments, hnoerr, hwarn]
  have hsingleW : String.intercalate "\n" [warnLine a] = warnLine a := rfl
  have hfaA : handle_attachments msgA =
      ([Effect.channelSend (warnLine a ++ limitFooter),
        Effect.progressSend (downloadingText 0 1),
        Effect.progressEdit (downloadingText 1 1)],
       some ([a.filename], true)) := by
    have hr1 : List.range 1 = [0] := rfl
    simp [handle_attachments, hA, hclA, hsingleW, hr1]
  have hblt : SIZE_LIMIT < b.size := by omega
  have hoth : ¬ SIZE_LIMIT < other.size := by omega
  have hclB : (classifyAttachments [b, other]).1 = [errLine b] := by
    by_cases hw2 : SIZE_LIMIT - 0x1000 < other.size <;>
      simp [classifyAttachments, hblt, hoth, hw2]
  have hsingleE : String.intercalate "\n" [errLine b] = errLine b := rfl
  have hfaB : handle_attachments msgB =
      ([Effect.channelSend (errLine b ++ limitFooter)], none) := by
    rcases hcl : classifyAttachments [b, other] with ⟨es, ws⟩
    rw [hcl] at hclB
    simp only at hclB
    subst hclB
    simp [handle_attachments, hB, hcl, hsingleE]
  have hsrB : (handle_staff_reply cfg w st msgB uid c).2 =
      [Effect.channelSend (errLine b ++ limitFooter)] := by
    simp [handle_staff_reply, hm, hmbot, hfaB]
  refine ⟨hfaA, ?_, hfaB, hsrB, ?_⟩
  · simp [handle_staff_reply, hm, hmbot, hfaA, hdm, isUserSend]
  · rw [hsrB]
    simp [isUserSend]

/-- Witness for C5 at concrete attachments of size `SIZE_LIMIT`,
`SIZE_LIMIT + 1` and `16`. -/
theorem C5_witness :
    w7.guildMember 7 = some ⟨"seven", none, false⟩ ∧
    (⟨"seven", none, false⟩ : MemberInfo).bot = false ∧
    w7.dmDeliverable 7 = true ∧
    (⟨7, false, "s", Channel.coordination, "!7 hi",
        [⟨"ok.png", "u1", SIZE_LIMIT⟩]⟩ : Message).attachments = [⟨"ok.png", "u1", SIZE_LIMIT⟩] ∧
    (⟨"ok.png", "u1", SIZE_LIMIT⟩ : Attachment).size = SIZE_LIMIT ∧
    (⟨7, false, "s", Channel.coordination, "!7 hi",
        [⟨"big.bin", "u2", SIZE_LIMIT + 1⟩, ⟨"small.txt", "u3", 16⟩]⟩ : Message).attachments =
      [⟨"big.bin", "u2", SIZE_LIMIT + 1⟩, ⟨"small.txt", "u3", 16⟩] ∧
    (⟨"big.bin", "u2", SIZE_LIMIT + 1⟩ : Attachment).size = SIZE_LIMIT + 1 ∧
    (⟨"small.txt", "u3", 16⟩ : Attachment).size ≤ SIZE_LIMIT ∧
    (handle_attachments
        ⟨7, false, "s", Channel.coordination, "!7 hi", [⟨"ok.png", "u1", SIZE_LIMIT⟩]⟩ =
      ([Effect.channelSend (warnLine ⟨"ok.png", "u1", SIZE_LIMIT⟩ ++ limitFooter),
        Effect.progressSend (downloadingText 0 1),
        Effect.progressEdit (downloadingText 1 1)],
       some (["ok.png"], true)) ∧
     (handle_staff_reply cfg0 w7 st0
        ⟨7, false, "s", Channel.coordination, "!7 hi", [⟨"ok.png", "u1", SIZE_LIMIT⟩]⟩
        7 "hi").2.any isUserSend = true ∧
     handle_attachments
        ⟨7, false, "s", Channel.coordination, "!7 hi",
          [⟨"big.bin", "u2", SIZE_LIMIT + 1⟩, ⟨"small.txt", "u3", 16⟩]⟩ =
      ([Effect.channelSend (errLine ⟨"big.bin", "u2", SIZE_LIMIT + 1⟩ ++ limitFooter)], none) ∧
     (handle_staff_reply cfg0 w7 st0
        ⟨7, false, "s", Channel.coordination, "!7 hi",
          [⟨"big.bin", "u2", SIZE_LIMIT + 1⟩, ⟨"small.txt", "u3", 16⟩]⟩ 7 "hi").2 =
      [Effect.channelSend (errLine ⟨"big.bin", "u2", SIZE_LIMIT + 1⟩ ++ limitFooter)] ∧
     (handle_staff_reply cfg0 w7 st0
        ⟨7, false, "s", Channel.coordination, "!7 hi",
          [⟨"big.bin", "u2", SIZE_LIMIT + 1⟩, ⟨"small.txt", "u3", 16⟩]⟩ 7 "hi").2.any isUserSend = false) :=
  ⟨rfl, rfl, rfl, rfl, rfl, rfl, rfl, (by decide),
    C5_attachment_size_boundary cfg0 w7 st0 _ _ 7 ⟨"seven", none, false⟩
      ⟨"ok.png", "u1", SIZE_LIMIT⟩ ⟨"big.bin", "u2", SIZE_LIMIT + 1⟩ ⟨"small.txt", "u3", 16⟩
      "hi" rfl rfl rfl rfl rfl rfl rfl (by decide)⟩

/-- C6: when the direct-message delivery of a staff reply is refused
(`discord.Forbidden`), the handler posts the "has disabled DMs"
failure report to the coordination channel and stops: no confirmation
embed is posted, the original staff command message is not deleted,
and the bot state is unchanged. -/
theorem C6_delivery_refused (cfg : Config) (w : World) (st : BotState)
    (msg : Message) (uid : Int) (m : MemberInfo) (c : String)
    (hm : w.guildMember uid = some m) (hmbot : m.bot = false)
    (hdm : w.dmDeliverable uid = false)
    (hok : ∀ x ∈ msg.attachments, x.size ≤ SIZE_LIMIT) :
    Effect.channelSend (disabledDMsMsg msg.author_id uid) ∈
      (handle_staff_reply cfg w st msg uid c).2 ∧
    (handle_staff_reply cfg w st msg uid c).2.any isConfirmEmbed = false ∧
    (handle_staff_reply cfg w st msg uid c).2.any isDeleteCommand = false ∧
    (handle_staff_reply cfg w st msg uid c).1 = st := by
  have hR := handle_attachments_ok msg hok
  have hstage := handle_attachments_effects_staging msg
  rcases hfa : handle_attachments msg with ⟨A, R⟩
  rw [hfa] at hR hstage
  rcases R with _ | ⟨files, hasP⟩
  · simp at hR
  · simp only at hstage
    have hsr : handle_staff_reply cfg w st msg uid c =
        (st, A ++ (if hasP then [Effect.progressEdit (sendingMsgText files.length)] else []) ++
          [Effect.channelSend (disabledDMsMsg msg.author_id uid)]) := by
      simp [handle_staff_reply, hm, hmbot, hfa, hdm]
    rw [hsr]
    refine ⟨by simp, ?_, ?_, rfl⟩
    · simp only [List.any_append, Bool.or_eq_false_iff]
      refine ⟨⟨?_, ?_⟩, ?_⟩
      · rw [List.any_eq_false]
        intro e he
        simp [stagingEffect_not_confirm e (hstage e he)]
      · cases hasP <;> simp [isConfirmEmbed]
      · simp [isConfirmEmbed]
    · simp only [List.any_append, Bool.or_eq_false_iff]
      refine ⟨⟨?_, ?_⟩, ?_⟩
      · rw [List.any_eq_false]
        intro e he
        simp [stagingEffect_not_delete e (hstage e he)]
      · cases hasP <;> simp [isDeleteCommand]
      · simp [isDeleteCommand]

/-- Witness for C6: user 7 resolvable but with DMs disabled. -/
theorem C6_witness :
    wNoDM.guildMember 7 = some ⟨"seven", none, false⟩ ∧
    (⟨"seven", none, false⟩ : MemberInfo).bot = false ∧
    wNoDM.dmDeliverable 7 = false ∧
    (∀ x ∈ (⟨9, false, "s", Channel.coordination, "!7 hi", []⟩ : Message).attachments,
      x.size ≤ SIZE_LIMIT) ∧
    (Effect.channelSend (disabledDMsMsg 9 7) ∈
      (handle_staff_reply cfg0 wNoDM st0
        ⟨9, false, "s", Channel.coordination, "!7 hi", []⟩ 7 "hi").2 ∧
     (handle_staff_reply cfg0 wNoDM st0
        ⟨9, false, "s", Channel.coordination, "!7 hi", []⟩ 7 "hi").2.any isConfirmEmbed = false ∧
     (handle_staff_reply cfg0 wNoDM st0
        ⟨9, false, "s", Channel.coordination, "!7 hi", []⟩ 7 "hi").2.any isDeleteCommand = false ∧
     (handle_staff_reply cfg0 wNoDM st0
        ⟨9, false, "s", Channel.coordination, "!7 hi", []⟩ 7 "hi").1 = st0) :=
  ⟨rfl, rfl, rfl, (by decide),
    C6_delivery_refused cfg0 wNoDM st0 _ 7 ⟨"seven", none, false⟩ "hi"
      rfl rfl rfl (by decide)⟩

/-- C7: unignoring a currently ignored user decides the notification
from the entry's quiet flag as read before the removal: a direct
notification is sent exactly when the prior entry was non-quiet, the
member is resolvable and delivery is allowed; and regardless of
whether that notify succeeds, the entry is removed and the success
outcome is reported on the coordination channel. -/
theorem C7_unignore_uses_prior_entry (cfg : Config) (w : World) (st : BotState)
    (msg : Message) (uidStr : String) (uid : Int) (entry : IgnoreEntry)
    (hp : pyInt? uidStr = some uid)
    (hig : is_ignored st.store uid = some entry) :
    is_ignored (handle_unignore cfg w st msg uidStr).1.store uid = none ∧
    Effect.channelSend (unignoredMsg cfg msg.author_id uid) ∈
      (handle_unignore cfg w st msg uidStr).2 ∧
    ((handle_unignore cfg w st msg uidStr).2.any isUserSend = true ↔
      (entry.quiet = false ∧ (w.guildMember uid).isSome = true ∧
        w.dmDeliverable uid = true)) := by
  rcases hfind : st.store.find? (fun e => e.1 == uid) with _ | p
  · unfold is_ignored at hig
    rw [hfind] at hig
    exact absurd hig (by simp)
  · have hpe : p.2 = entry := by
      unfold is_ignored at hig
      rw [hfind] at hig
      simpa using hig
    have hpmem : p ∈ st.store := List.mem_of_find?_eq_some hfind
    have hpbeq : (p.1 == uid) = true := by
      have h := List.find?_some hfind
      simpa using h
    have hcount : 0 < st.store.countP (fun e => e.1 == uid) :=
      List.countP_pos_iff.mpr ⟨p, hpmem, hpbeq⟩
    refine ⟨?_, ?_, ?_⟩
    · have hstore : (handle_unignore cfg w st msg uidStr).1.store =
          st.store.filter (fun e => !(e.1 == uid)) := by
        simp [handle_unignore, hp, remove_ignore]
      rw [hstore]
      unfold is_ignored
      have hnone : (st.store.filter (fun e => !(e.1 == uid))).find?
          (fun e => e.1 == uid) = none := by
        rw [List.find?_eq_none]
        intro a ha
        have hneg := (List.mem_filter.mp ha).2
        simp only [Bool.not_eq_true'] at hneg
        simp [hneg]
      rw [hnone]
    · simp [handle_unignore, hp, remove_ignore, hcount, hig]
    · rcases hgm : w.guildMember uid with _ | mi <;> cases hq : entry.quiet <;>
        cases hdmv : w.dmDeliverable uid <;>
        simp [handle_unignore, hp, remove_ignore, hcount, hig, hgm, hq, hdmv,
          isUserSend]

/-- Witness for C7: quiet entry for user 7, member resolvable with
deliverable DMs — no notification is sent, entry removed, success
reported. -/
theorem C7_witness :
    pyInt? "7" = some 7 ∧
    is_ignored [(7, ⟨true, some "spam"⟩)] 7 = some ⟨true, some "spam"⟩ ∧
    (is_ignored (handle_unignore cfg0 w7
        { st0 with store := [(7, ⟨true, some "spam"⟩)] }
        ⟨9, false, "s", Channel.coordination, "!unignore 7", []⟩ "7").1.store 7 = none ∧
     Effect.channelSend (unignoredMsg cfg0 9 7) ∈
      (handle_unignore cfg0 w7 { st0 with store := [(7, ⟨true, some "spam"⟩)] }
        ⟨9, false, "s", Channel.coordination, "!unignore 7", []⟩ "7").2 ∧
     ((handle_unignore cfg0 w7 { st0 with store := [(7, ⟨true, some "spam"⟩)] }
        ⟨9, false, "s", Channel.coordination, "!unignore 7", []⟩ "7").2.any isUserSend = true ↔
      ((⟨true, some "spam"⟩ : IgnoreEntry).quiet = false ∧
        (w7.guildMember 7).isSome = true ∧ w7.dmDeliverable 7 = true))) :=
  ⟨(by decide), rfl,
    C7_unignore_uses_prior_entry cfg0 w7 _ _ "7" 7 ⟨true, some "spam"⟩ (by decide) rfl⟩

/-- C8 counterexample: the typing surface is NOT gated by
`already_ready`.  With the ready flag still false, a DM typing event
from a non-ignored user consults the ignore store and forwards a
typing indicator — an outbound effect before readiness, contradicting
the claim that every inbound surface is inert before `is_ready`. -/
theorem C8_counterexample :
    ({ st0 with already_ready := false } : BotState).already_ready = false ∧
    on_typing { st0 with already_ready := false } true 3 =
      [Effect.channelTyping] :=
  ⟨rfl, rfl⟩

/-- C8 amended: before `already_ready` is set, the message surfaces
(direct messages and coordination-channel messages alike) perform no
processing and produce no effect; but the typing surface is not
gated — a DM typing event from a non-ignored user forwards typing
regardless of the ready flag. -/
theorem C8_amended_ready_gate (cfg : Config) (w : World) (st : BotState)
    (msg : Message) (uid : Int)
    (hready : st.already_ready = false) :
    on_message cfg w st msg = ⟨st, [], none⟩ ∧
    ((is_ignored st.store uid).isNone = true →
      on_typing st true uid = [Effect.channelTyping]) := by
  constructor
  · simp [on_message, hready]
  · intro h
    simp [on_typing, h]

/-- Witness for C8 amended at a concrete not-ready state. -/
theorem C8_witness :
    ({ st0 with already_ready := false } : BotState).already_ready = false ∧
    (on_message cfg0 w0 { st0 with already_ready := false } (dmMsg 7) =
      ⟨{ st0 with already_ready := false }, [], none⟩ ∧
     ((is_ignored ({ st0 with already_ready := false } : BotState).store 3).isNone = true →
       on_typing { st0 with already_ready := false } true 3 = [Effect.channelTyping])) :=
  ⟨rfl, C8_amended_ready_gate cfg0 w0 _ (dmMsg 7) 3 rfl⟩

/-- C9 counterexample: there is no duplicate suppression.  With
`last_id = 5`, issuing the identical command `!m` twice in immediate
succession produces the reply both times — the second invocation is
processed normally, not treated as a duplicate; and after the first
completion the per-token flag holds `false`, not a duplicate marker. -/
theorem C9_counterexample :
    (on_message cfg0 w0
        ((on_message cfg0 w0 { st0 with last_id := some 5 }
          ⟨9, false, "s", Channel.coordination, "!m", []⟩).state)
        ⟨9, false, "s", Channel.coordination, "!m", []⟩).effects =
      [Effect.channelSend (mLastMsg 5)] ∧
    ((on_message cfg0 w0 { st0 with last_id := some 5 }
        ⟨9, false, "s", Channel.coordination, "!m", []⟩).state.antiDup
      (Tok.str "m")) = some false :=
  ⟨rfl, rfl⟩

/-- C9 amended: after a recognized command completes, the handler
sleeps 2 seconds and then writes `false` into the per-first-token
`anti_duplicate_replies` entry; the flag is never set to any value
other than `false` by the handler, and it is never read, so an
identical command re-issued within (or after) the cooldown is
processed again in full — shown here for the `m` command under any
configured prefix: both the first and an immediately repeated
invocation emit the reply, and the token's flag ends up `some false`.
-/
theorem C9_amended_dup_flag_inert (cfg : Config) (w : World) (st : BotState)
    (author : Int) (an : String) (lid : Int)
    (hready : st.already_ready = true) (hlid : st.last_id = some lid) :
    (on_message cfg w st
        ⟨author, false, an, Channel.coordination, cfg.pfx ++ "m", []⟩).effects =
      [Effect.channelSend (mLastMsg lid)] ∧
    (on_message cfg w st
        ⟨author, false, an, Channel.coordination, cfg.pfx ++ "m", []⟩).state.antiDup
      (Tok.str "m") = some false ∧
    (∀ t, (on_message cfg w st
        ⟨author, false, an, Channel.coordination, cfg.pfx ++ "m", []⟩).state.antiDup t = some true →
      st.antiDup t = some true) ∧
    (on_message cfg w
        ((on_message cfg w st
          ⟨author, false, an, Channel.coordination, cfg.pfx ++ "m", []⟩).state)
        ⟨author, false, an, Channel.coordination, cfg.pfx ++ "m", []⟩).effects =
      [Effect.channelSend (mLastMsg lid)] := by
  have hsw : pyStartsWith (cfg.pfx ++ "m") cfg.pfx = true := by
    simp [pyStartsWith, String.toList]
  have hdrop : pyDropChars (cfg.pfx ++ "m") cfg.pfx.length = "m" := by
    simp only [pyDropChars, String.toList, String.data_append]
    rw [show cfg.pfx.length = cfg.pfx.data.length from rfl]
    rw [List.drop_left]
  have hsplit : pySplitMax1 "m" = some ("m", none) := rfl
  have hdig : pyIsDigit "m" = false := rfl
  have hcb : ∀ s : BotState, s.last_id = some lid →
      coordBranch cfg w s ⟨author, false, an, Channel.coordination, cfg.pfx ++ "m", []⟩ =
        ({ s with antiDup := fun t => if t = Tok.str "m" then some false else s.antiDup t },
         [Effect.channelSend (mLastMsg lid)]) := by
    intro s hs
    simp [coordBranch, hsw, hdrop, hsplit, hdig, hs, setDup]
  have h1 := hcb st hlid
  have hom1 : on_message cfg w st
      ⟨author, false, an, Channel.coordination, cfg.pfx ++ "m", []⟩ =
      ⟨({ st with antiDup := fun t => if t = Tok.str "m" then some false else st.antiDup t }),
        [Effect.channelSend (mLastMsg lid)], none⟩ := by
    simp [on_message, hready, h1]
  refine ⟨?_, ?_, ?_, ?_⟩
  · rw [hom1]
  · rw [hom1]
    simp
  · intro t
    rw [hom1]
    simp only
    split
    · intro h
      exact absurd h (by simp)
    · exact id
  · rw [hom1]
    have h2 := hcb
      { st with
          already_ready := true
          antiDup := fun t => if t = Tok.str "m" then some false else st.antiDup t }
      hlid
    simp [on_message, hready, h2]

/-- Witness for C9 amended at the concrete prefix `!`. -/
theorem C9_witness :
    ({ st0 with last_id := some 5 } : BotState).already_ready = true ∧
    ({ st0 with last_id := some 5 } : BotState).last_id = some 5 ∧
    ((on_message cfg0 w0 { st0 with last_id := some 5 }
        ⟨9, false, "s", Channel.coordination, cfg0.pfx ++ "m", []⟩).effects =
      [Effect.channelSend (mLastMsg 5)] ∧
     (on_message cfg0 w0 { st0 with last_id := some 5 }
        ⟨9, false, "s", Channel.coordination, cfg0.pfx ++ "m", []⟩).state.antiDup
      (Tok.str "m") = some false ∧
     (∀ t, (on_message cfg0 w0 { st0 with last_id := some 5 }
        ⟨9, false, "s", Channel.coordination, cfg0.pfx ++ "m", []⟩).state.antiDup t = some true →
       ({ st0 with last_id := some 5 } : BotState).antiDup t = some true) ∧
     (on_message cfg0 w0
        ((on_message cfg0 w0 { st0 with last_id := some 5 }
          ⟨9, false, "s", Channel.coordination, cfg0.pfx ++ "m", []⟩).state)
        ⟨9, false, "s", Channel.coordination, cfg0.pfx ++ "m", []⟩).effects =
      [Effect.channelSend (mLastMsg 5)]) :=
  ⟨rfl, rfl,
    C9_amended_dup_flag_inert cfg0 w0 { st0 with last_id := some 5 } 9 "s" 5 rfl rfl⟩

/-- Witness for C10: a bot-authored coordination-channel command is
not executed. -/
theorem C10_witness :
    (⟨7, true, "bot", Channel.coordination, "!m", []⟩ : Message).author_bot = true ∧
    on_message cfg0 w0 st0 ⟨7, true, "bot", Channel.coordination, "!m", []⟩ =
      ⟨st0, [], none⟩ :=
  ⟨rfl, C10_bot_author_dropped cfg0 w0 st0 _ rfl⟩

end ModMail
